import Mathlib

/-!
Verification of the control-plane logic of a software-defined NAT gateway
(an OpenFlow controller).  The development shallowly embeds the controller:
its four tables (MAC learning, ARP resolution, pending ARP queues, NAT
translation) become an explicit state record, the packet handlers become
state-passing functions returning the list of OpenFlow messages they emit
(packet-out / flow-mod events) together with the next state, and unhandled
Python exceptions (KeyError, UnboundLocalError, attribute errors on
ill-typed frames) become an error field of the result.

MAC addresses, IPv4 addresses, port numbers, datapath ids and ethertypes
are modelled as natural numbers; the configuration constants read from the
configuration module (which is not part of the embedded source) are fields
of a `Config` record, with membership of an address in the internal network
modelled as a Boolean-valued predicate field.
-/

/-- Output-port designators used by the controller: a concrete switch port,
the OFPP_FLOOD sentinel, or the OFPP_IN_PORT sentinel. -/
inductive OutPort : Type
  | phys (p : Nat)
  | flood
  | inport
deriving DecidableEq

/-- OpenFlow actions the controller attaches to packet-out and flow-mod
messages. -/
inductive OFAction : Type
  | decNwTtl
  | setEthSrc (m : Nat)
  | setEthDst (m : Nat)
  | setIpv4Src (a : Nat)
  | setIpv4Dst (a : Nat)
  | setTcpSrc (p : Nat)
  | setTcpDst (p : Nat)
  | setUdpSrc (p : Nat)
  | setUdpDst (p : Nat)
  | output (p : OutPort)
deriving DecidableEq

/-- Payload of a decapsulated frame above the ethernet header: an ARP
payload, an IPv4 payload (carrying the transport ports used on the TCP and
UDP branches), or anything else. -/
inductive L3 : Type
  | arpPl (opcode srcMac srcIp dstMac dstIp : Nat)
  | ipv4Pl (srcIp dstIp proto l4src l4dst : Nat)
  | rawPl
deriving DecidableEq

/-- A decapsulated frame: ethernet source, destination and ethertype, plus
the payload above the ethernet header. -/
structure Frame where
  ethSrc : Nat
  ethDst : Nat
  ethType : Nat
  l3 : L3
deriving DecidableEq

/-- The packet-in context handed to the controller: ingress port, datapath
id, and the decapsulated frame carried as the raw packet data. -/
structure OFPacket where
  inPort : Nat
  dpid : Nat
  dataFrame : Frame
deriving DecidableEq

/-- Flow match specification (OFPMatch) as built by the controller: IPv4
source and destination, ip_proto, and the optional transport ports (present
on the TCP and UDP matches, absent on the ICMP match). -/
structure MatchSpec where
  ipv4Src : Nat
  ipv4Dst : Nat
  ipProto : Nat
  l4Src : Option Nat
  l4Dst : Option Nat
deriving DecidableEq

/-- An entry of a pending-ARP queue: the parked packet-in context together
with the optional flow-install spec and optional extra actions stored with
it. -/
structure PendingEntry where
  ofPkt : OFPacket
  mtch : Option MatchSpec
  acts : Option (List OFAction)
deriving DecidableEq

/-- Observable messages the controller sends to the switch: a packet-out
(datapath, the in_port field of the message, payload, action list) or a
flow-mod installing a rule. -/
inductive Event : Type
  | sendPacket (dpid inPort : Nat) (payload : Frame) (actions : List OFAction)
  | addFlow (dpid : Nat) (mtch : MatchSpec) (actions : List OFAction)
deriving DecidableEq

/-- Unhandled Python exceptions a handler can raise: a KeyError on a dict
lookup, an UnboundLocalError on a local variable that was never assigned,
and an attribute error on a frame whose ethertype does not match its
payload. -/
inductive PyErr : Type
  | keyError
  | unboundLocal
  | malformed
deriving DecidableEq

/-- The controller state: the ARP table (IP to MAC), the switch learning
table (MAC to port), the pending-ARP queues (IP to queue), the NAT port
allocation counter, and the NAT translation table (external port to
internal address and port). -/
structure NatState where
  arpTable : List (Nat × Nat)
  switchTable : List (Nat × Nat)
  pendingArp : List (Nat × List PendingEntry)
  natPort : Nat
  natTranslation : List (Nat × (Nat × Nat))
deriving DecidableEq

/-- Result of running a handler: the events emitted, the next state, and
the unhandled exception if one escaped. -/
structure StepResult where
  events : List Event
  state : NatState
  err : Option PyErr
deriving DecidableEq

/-- Configuration constants loaded at startup: the gateway's internal and
external MAC and IP, the next-hop (default gateway) IP, and membership of
an address in the internal network. -/
structure Config where
  natInternalMac : Nat
  natExternalMac : Nat
  natInternalIp : Nat
  natExternalIp : Nat
  natGatewayIp : Nat
  isInternalNet : Nat → Bool

/-! ### Dictionaries

Python dictionaries are modelled as association lists whose keys are kept
unique: assignment overwrites the value in place of the first occurrence or
appends a fresh entry, deletion removes the key. -/

/-- Dictionary lookup. -/
def dictGet {α : Type} : List (Nat × α) → Nat → Option α
  | [], _ => none
  | (k, v) :: rest, q => if k = q then some v else dictGet rest q

/-- Dictionary assignment: overwrite the existing entry in place, or append
a fresh one. -/
def dictSet {α : Type} : List (Nat × α) → Nat → α → List (Nat × α)
  | [], k, v => [(k, v)]
  | (k0, v0) :: rest, k, v =>
    if k0 = k then (k, v) :: rest else (k0, v0) :: dictSet rest k v

/-- Dictionary deletion of a key. -/
def dictDel {α : Type} : List (Nat × α) → Nat → List (Nat × α)
  | [], _ => []
  | (k0, v0) :: rest, k =>
    if k0 = k then dictDel rest k else (k0, v0) :: dictDel rest k

theorem dictGet_set_self {α : Type} (l : List (Nat × α)) (k : Nat) (v : α) :
    dictGet (dictSet l k v) k = some v := by
  induction l with
  | nil => simp [dictGet, dictSet]
  | cons hd tl ih =>
    obtain ⟨k0, v0⟩ := hd
    by_cases h : k0 = k
    · simp [dictGet, dictSet, h]
    · simp [dictGet, dictSet, h, ih]

theorem dictGet_set_ne {α : Type} (l : List (Nat × α)) (k q : Nat) (v : α)
    (h : q ≠ k) : dictGet (dictSet l k v) q = dictGet l q := by
  have hkq : ¬(k = q) := fun e => h e.symm
  induction l with
  | nil => simp [dictGet, dictSet, hkq]
  | cons hd tl ih =>
    obtain ⟨k0, v0⟩ := hd
    by_cases hk : k0 = k
    · subst hk
      simp [dictGet, dictSet, hkq]
    · simp only [dictSet, if_neg hk]
      by_cases hq : k0 = q
      · simp [dictGet, hq]
      · simp [dictGet, hq, ih]

theorem dictGet_del_self {α : Type} (l : List (Nat × α)) (k : Nat) :
    dictGet (dictDel l k) k = none := by
  induction l with
  | nil => simp [dictGet, dictDel]
  | cons hd tl ih =>
    obtain ⟨k0, v0⟩ := hd
    by_cases h : k0 = k
    · simp [dictDel, h, ih]
    · simp [dictDel, dictGet, h, ih]

/-! ### The controller

Each function below embeds the method of the same purpose in the
controller source; the docstrings name the embedded method. -/

/-- Initial controller state: empty tables and NAT port counter at the
configured base 3000 (the initializer of the controller). -/
def initState : NatState := ⟨[], [], [], 3000, []⟩

/-- Embeds switch_learn: record the frame's source MAC against the ingress
port, unconditionally overwriting. -/
def switchLearn (s : NatState) (pkt : OFPacket) : NatState :=
  { s with switchTable := dictSet s.switchTable pkt.dataFrame.ethSrc pkt.inPort }

/-- Output-port resolution used by switch_forward: the learned port for a
MAC, or the flood sentinel for a never-learned MAC. -/
def resolveOutputPort (tbl : List (Nat × Nat)) (mac : Nat) : OutPort :=
  match dictGet tbl mac with
  | some p => OutPort.phys p
  | none => OutPort.flood

/-- Embeds switch_forward: emit a packet-out carrying the packet-in's raw
data, with the given actions followed by an output action on the port
resolved from the passed frame's destination MAC. -/
def switchForward (s : NatState) (pkt : OFPacket) (f : Frame)
    (acts : Option (List OFAction)) : List Event :=
  [Event.sendPacket pkt.dpid pkt.inPort pkt.dataFrame
    (acts.getD [] ++ [OFAction.output (resolveOutputPort s.switchTable f.ethDst)])]

/-- Embeds router_next_hop: decrement the TTL and rewrite both link
addresses. -/
def routerNextHop (srcMac dstMac : Nat) : List OFAction :=
  [OFAction.decNwTtl, OFAction.setEthSrc srcMac, OFAction.setEthDst dstMac]

/-- The broadcast link address ff:ff:ff:ff:ff:ff. -/
def broadcastMac : Nat := 281474976710655

/-- The ARP request frame built by send_arp_request: broadcast destination,
and the sender identity chosen from the external side when the target is
the gateway IP, from the internal side otherwise. -/
def arpRequestFrame (cfg : Config) (ip : Nat) : Frame :=
  if ip = cfg.natGatewayIp then
    ⟨cfg.natExternalMac, broadcastMac, 2054,
      L3.arpPl 1 cfg.natExternalMac cfg.natExternalIp 0 ip⟩
  else
    ⟨cfg.natInternalMac, broadcastMac, 2054,
      L3.arpPl 1 cfg.natInternalMac cfg.natInternalIp 0 ip⟩

/-- Embeds send_arp_request: append to an existing pending queue without
broadcasting, or create the queue and flood one ARP request frame. -/
def sendArpRequest (cfg : Config) (s : NatState) (ip : Nat) (pkt : OFPacket)
    (m : Option MatchSpec) (a : Option (List OFAction)) : List Event × NatState :=
  match dictGet s.pendingArp ip with
  | some q =>
    ([], { s with pendingArp := dictSet s.pendingArp ip (q ++ [⟨pkt, m, a⟩]) })
  | none =>
    ([Event.sendPacket pkt.dpid pkt.inPort (arpRequestFrame cfg ip)
        [OFAction.output OutPort.flood]],
     { s with pendingArp := dictSet s.pendingArp ip [⟨pkt, m, a⟩] })

/-- Embeds router_forward: if the next hop's MAC is unknown, park the
packet via send_arp_request; otherwise send the frame with next-hop rewrite
actions and, when a match spec is present, install the flow afterwards with
the same action list (which, in the source, already contains the output
action appended by send_packet). -/
def routerForward (cfg : Config) (s : NatState) (pkt : OFPacket) (f : Frame)
    (nextIp : Nat) (m : Option MatchSpec) (extra : Option (List OFAction)) :
    List Event × NatState :=
  match dictGet s.arpTable nextIp with
  | none => sendArpRequest cfg s nextIp pkt m extra
  | some dstMac =>
    let srcMac := if nextIp = cfg.natGatewayIp then cfg.natExternalMac
      else cfg.natInternalMac
    let full := routerNextHop srcMac dstMac ++ extra.getD [] ++
      [OFAction.output (resolveOutputPort s.switchTable f.ethDst)]
    ([Event.sendPacket pkt.dpid pkt.inPort pkt.dataFrame full] ++
      (match m with
       | some ms => [Event.addFlow pkt.dpid ms full]
       | none => []), s)

/-- Events emitted when one parked request is replayed by router_forward
with the resolved MAC dstMac known for ip: the parked frame is re-sent with
next-hop rewrite actions, and its flow spec, if any, is installed with the
same action list. -/
def replayEvents (cfg : Config) (tbl : List (Nat × Nat)) (ip dstMac : Nat)
    (e : PendingEntry) : List Event :=
  let srcMac := if ip = cfg.natGatewayIp then cfg.natExternalMac
    else cfg.natInternalMac
  let full := routerNextHop srcMac dstMac ++ e.acts.getD [] ++
    [OFAction.output (resolveOutputPort tbl e.ofPkt.dataFrame.ethDst)]
  [Event.sendPacket e.ofPkt.dpid e.ofPkt.inPort e.ofPkt.dataFrame full] ++
    (match e.mtch with
     | some ms => [Event.addFlow e.ofPkt.dpid ms full]
     | none => [])

/-- The drain loop of handle_incoming_arp: replay every parked request for
ip through router_forward, threading the state. -/
def drainLoop (cfg : Config) (ip : Nat) :
    NatState → List PendingEntry → List Event × NatState
  | s, [] => ([], s)
  | s, e :: rest =>
    let r1 := routerForward cfg s e.ofPkt e.ofPkt.dataFrame ip e.mtch e.acts
    let r2 := drainLoop cfg ip r1.2 rest
    (r1.1 ++ r2.1, r2.2)

/-- Embeds send_arp_reply: when the requested IP is one of the gateway's
own two addresses, send a synthesized reply to the requester's MAC out of
the OFPP_IN_PORT of the given packet-in context; otherwise send nothing. -/
def sendArpReply (cfg : Config) (pkt : OFPacket)
    (reqSrcMac reqSrcIp reqDstIp : Nat) : List Event :=
  if reqDstIp = cfg.natInternalIp then
    [Event.sendPacket pkt.dpid pkt.inPort
      ⟨cfg.natInternalMac, reqSrcMac, 2054,
        L3.arpPl 2 cfg.natInternalMac reqDstIp reqSrcMac reqSrcIp⟩
      [OFAction.output OutPort.inport]]
  else if reqDstIp = cfg.natExternalIp then
    [Event.sendPacket pkt.dpid pkt.inPort
      ⟨cfg.natExternalMac, reqSrcMac, 2054,
        L3.arpPl 2 cfg.natExternalMac reqDstIp reqSrcMac reqSrcIp⟩
      [OFAction.output OutPort.inport]]
  else []

/-- Embeds handle_incoming_arp: record the sender's ARP entry, drain and
delete any queue pending on the sender's IP, forward using learned-address
forwarding, and answer ARP requests for the gateway's own addresses.  The
source's drain loop rebinds the local variable holding the packet-in
context; after a non-empty drain the trailing forward and the reply
therefore use the last parked request's context (and its raw data) instead
of the triggering frame's, which this embedding reproduces. -/
def handleIncomingArp (cfg : Config) (s : NatState) (pkt : OFPacket) (f : Frame) :
    StepResult :=
  match f.l3 with
  | L3.arpPl opcode srcMac srcIp _ dstIp =>
    let s1 : NatState := { s with arpTable := dictSet s.arpTable srcIp srcMac }
    let d :=
      match dictGet s1.pendingArp srcIp with
      | some q =>
        let r := drainLoop cfg srcIp s1 q
        (r.1, { r.2 with pendingArp := dictDel r.2.pendingArp srcIp },
          match q.getLast? with
          | some e => e.ofPkt
          | none => pkt)
      | none => ([], s1, pkt)
    let fwdEvs := switchForward d.2.1 d.2.2 f none
    let replyEvs := if opcode = 1 then sendArpReply cfg d.2.2 srcMac srcIp dstIp
      else []
    ⟨d.1 ++ fwdEvs ++ replyEvs, d.2.1, none⟩
  | _ => ⟨[], s, some PyErr.malformed⟩

/-- Embeds add_nat_entry: return the current counter value as the external
port, store the internal pair under it, and advance the counter. -/
def addNatEntry (s : NatState) (e : Nat × Nat) : Nat × NatState :=
  (s.natPort,
   { s with natTranslation := dictSet s.natTranslation s.natPort e,
            natPort := s.natPort + 1 })

/-- Embeds handle_incoming_external_msg: for an IPv4 frame addressed to the
external NAT MAC, look the TCP or UDP destination port up in the
translation table; on a miss (or other transport) do nothing; on a hit,
raise KeyError when the internal target's ARP entry is still absent after
the ARP request and the fixed delay, raise UnboundLocalError for the
output port when the internal host's MAC was never learned, and otherwise
install the rewrite rule and forward. -/
def handleIncomingExternalMsg (cfg : Config) (s : NatState) (pkt : OFPacket)
    (f : Frame) : StepResult :=
  if f.ethType = 2048 then
    match f.l3 with
    | L3.ipv4Pl srcIp dstIp proto l4src l4dst =>
      if proto = 6 ∨ proto = 17 then
        if l4dst = 0 then ⟨[], s, none⟩
        else
          match dictGet s.natTranslation l4dst with
          | none => ⟨[], s, none⟩
          | some entry =>
            match dictGet s.arpTable entry.1 with
            | none =>
              let r := sendArpRequest cfg s entry.1 pkt none none
              ⟨r.1, r.2, some PyErr.keyError⟩
            | some internalHostMac =>
              match dictGet s.switchTable internalHostMac with
              | none => ⟨[], s, some PyErr.unboundLocal⟩
              | some outp =>
                let m : MatchSpec := ⟨srcIp, dstIp, proto, some l4src, some l4dst⟩
                let acts : List OFAction :=
                  [OFAction.setIpv4Dst entry.1,
                   if proto = 6 then OFAction.setTcpDst entry.2
                     else OFAction.setUdpDst entry.2,
                   OFAction.setEthSrc cfg.natInternalMac,
                   OFAction.setEthDst internalHostMac,
                   OFAction.output (OutPort.phys outp)]
                ⟨[Event.addFlow pkt.dpid m acts] ++ switchForward s pkt f (some acts),
                  s, none⟩
      else ⟨[], s, none⟩
    | _ => ⟨[], s, some PyErr.malformed⟩
  else ⟨[], s, none⟩

/-- Embeds handle_incoming_internal_msg: internal-to-internal IPv4 frames
get a plain-output flow and learned-address forwarding; internal-to-external
TCP or UDP frames get a fresh NAT allocation, a source-rewrite flow
installed up front, and next-hop forwarding via router_forward; other
transports leave the local match variable unbound, which raises
UnboundLocalError at the flow installation. -/
def handleIncomingInternalMsg (cfg : Config) (s : NatState) (pkt : OFPacket)
    (f : Frame) : StepResult :=
  let outp := resolveOutputPort s.switchTable f.ethDst
  if f.ethType = 2048 then
    match f.l3 with
    | L3.ipv4Pl srcIp dstIp proto l4src l4dst =>
      if cfg.isInternalNet dstIp then
        let acts := [OFAction.output outp]
        if proto = 1 then
          let m : MatchSpec := ⟨srcIp, dstIp, proto, none, none⟩
          ⟨[Event.addFlow pkt.dpid m acts] ++ switchForward s pkt f (some acts),
            s, none⟩
        else if proto = 6 ∨ proto = 17 then
          let m : MatchSpec := ⟨srcIp, dstIp, proto, some l4src, some l4dst⟩
          ⟨[Event.addFlow pkt.dpid m acts] ++ switchForward s pkt f (some acts),
            s, none⟩
        else ⟨[], s, some PyErr.unboundLocal⟩
      else
        if proto = 6 ∨ proto = 17 then
          let r := addNatEntry s (srcIp, l4src)
          let m : MatchSpec := ⟨srcIp, dstIp, proto, some l4src, some l4dst⟩
          let acts : List OFAction :=
            [OFAction.setIpv4Src cfg.natExternalIp,
             if proto = 6 then OFAction.setTcpSrc r.1 else OFAction.setUdpSrc r.1,
             OFAction.setEthSrc cfg.natExternalMac,
             OFAction.output outp]
          let r2 := routerForward cfg r.2 pkt f cfg.natGatewayIp (some m) (some acts)
          ⟨[Event.addFlow pkt.dpid m acts] ++ r2.1, r2.2, none⟩
        else ⟨[], s, some PyErr.unboundLocal⟩
    | _ => ⟨[], s, some PyErr.malformed⟩
  else ⟨[], s, none⟩

/-- Embeds handle_packet_in: drop IPv6, learn the source MAC, then dispatch
on ARP frames, frames addressed to the external NAT MAC, and everything
else. -/
def handlePacketIn (cfg : Config) (s : NatState) (pkt : OFPacket) : StepResult :=
  let f := pkt.dataFrame
  if f.ethType = 34525 then ⟨[], s, none⟩
  else
    let s1 := switchLearn s pkt
    if f.ethType = 2054 then handleIncomingArp cfg s1 pkt f
    else if f.ethDst = cfg.natExternalMac then handleIncomingExternalMsg cfg s1 pkt f
    else handleIncomingInternalMsg cfg s1 pkt f

/-- A session of add_nat_entry calls: the external ports returned, in call
order, and the final state. -/
def allocRun : NatState → List (Nat × Nat) → List Nat × NatState
  | s, [] => ([], s)
  | s, e :: es =>
    let r := addNatEntry s e
    let r2 := allocRun r.2 es
    (r.1 :: r2.1, r2.2)

/-- A run of switch_learn calls for a sequence of observed packet-ins. -/
def learnRun : NatState → List OFPacket → NatState
  | s, [] => s
  | s, p :: ps => learnRun (switchLearn s p) ps

/-! ### Helper lemmas -/

theorem allocRun_ports (es : List (Nat × Nat)) : ∀ s : NatState,
    (allocRun s es).1 = List.range' s.natPort es.length := by
  induction es with
  | nil => intro s; simp [allocRun]
  | cons e es ih =>
    intro s
    simp [allocRun, addNatEntry, ih, List.range'_succ]

theorem allocRun_lookup_lt (es : List (Nat × Nat)) : ∀ (s : NatState) (k : Nat),
    k < s.natPort →
    dictGet (allocRun s es).2.natTranslation k = dictGet s.natTranslation k := by
  induction es with
  | nil => intro s k _; rfl
  | cons e es ih =>
    intro s k hk
    have h1 : k < s.natPort + 1 := Nat.lt_succ_of_lt hk
    calc dictGet (allocRun s (e :: es)).2.natTranslation k
        = dictGet (dictSet s.natTranslation s.natPort e) k := ih _ k h1
      _ = dictGet s.natTranslation k := dictGet_set_ne _ _ _ _ (Nat.ne_of_lt hk)

theorem allocRun_lookup (es : List (Nat × Nat)) : ∀ (s : NatState) (i : Nat)
    (h : i < es.length),
    dictGet (allocRun s es).2.natTranslation (s.natPort + i) =
      some (es.get ⟨i, h⟩) := by
  induction es with
  | nil => intro s i h; exact absurd h (Nat.not_lt_zero i)
  | cons e es ih =>
    intro s i h
    match i with
    | 0 =>
      have hlt : s.natPort < s.natPort + 1 := Nat.lt_succ_self _
      calc dictGet (allocRun s (e :: es)).2.natTranslation (s.natPort + 0)
          = dictGet (dictSet s.natTranslation s.natPort e) s.natPort :=
            allocRun_lookup_lt es _ _ hlt
        _ = some e := dictGet_set_self _ _ _
    | i + 1 =>
      have h2 : i < es.length := Nat.lt_of_succ_lt_succ h
      have := ih { s with
          natTranslation := dictSet s.natTranslation s.natPort e,
          natPort := s.natPort + 1 } i h2
      simpa [allocRun, addNatEntry, Nat.add_assoc, Nat.add_comm 1 i] using this

theorem drainLoop_known (cfg : Config) (ip dstMac : Nat) :
    ∀ (q : List PendingEntry) (s : NatState),
    dictGet s.arpTable ip = some dstMac →
    drainLoop cfg ip s q =
      ((q.map (replayEvents cfg s.switchTable ip dstMac)).flatten, s) := by
  intro q
  induction q with
  | nil => intro s _; rfl
  | cons e rest ih =>
    intro s h
    have hrf : routerForward cfg s e.ofPkt e.ofPkt.dataFrame ip e.mtch e.acts =
        (replayEvents cfg s.switchTable ip dstMac e, s) := by
      simp [routerForward, h, replayEvents]
    simp [drainLoop, hrf, ih s h]

theorem learnRun_lookup (ps : List OFPacket) : ∀ (s : NatState) (mac : Nat),
    dictGet (learnRun s ps).switchTable mac =
      match ps.reverse.find? (fun p => p.dataFrame.ethSrc == mac) with
      | some p => some p.inPort
      | none => dictGet s.switchTable mac := by
  induction ps with
  | nil => intro s mac; rfl
  | cons p ps ih =>
    intro s mac
    rw [show learnRun s (p :: ps) = learnRun (switchLearn s p) ps from rfl, ih]
    rw [List.reverse_cons, List.find?_append]
    cases hfind : ps.reverse.find? (fun p => p.dataFrame.ethSrc == mac) with
    | some q => simp [hfind, Option.or]
    | none =>
      by_cases hmac : p.dataFrame.ethSrc = mac
      · simp [hfind, Option.or, List.find?, hmac, switchLearn, dictGet_set_self]
      · have hb : (p.dataFrame.ethSrc == mac) = false := beq_eq_false_iff_ne.mpr hmac
        simp [hfind, Option.or, List.find?, hb, switchLearn,
          dictGet_set_ne _ _ _ _ (fun e => hmac e.symm)]

/-! ### Concrete fixtures used by the closed theorems -/

/-- A concrete configuration: internal MAC 101, external MAC 100, internal
IP 201, external IP 200, gateway IP 202, internal network = addresses
below 150. -/
def cfgX : Config := ⟨101, 100, 201, 200, 202, fun ip => decide (ip < 150)⟩

/-- A concrete parked data frame. -/
def frameG : Frame := ⟨10, 11, 2048, L3.ipv4Pl 20 60 6 5000 80⟩

/-! ### Claim theorems -/

/-- C1: every session of translation-table allocations starting from the
initial state returns strictly increasing, pairwise distinct external
ports starting at the configured base 3000 (the i-th call returns
3000 + i), and reverse lookup of the i-th allocated port returns exactly
the (internal address, internal port) pair passed to the i-th allocate
call. -/
theorem allocator_ports_increasing_and_reverse_lookup (es : List (Nat × Nat)) :
    (allocRun initState es).1 = List.range' 3000 es.length
    ∧ List.Pairwise (· < ·) (allocRun initState es).1
    ∧ ∀ i (h : i < es.length),
        dictGet (allocRun initState es).2.natTranslation (3000 + i) =
          some (es.get ⟨i, h⟩) := by
  refine ⟨allocRun_ports es initState, ?_, ?_⟩
  · rw [allocRun_ports es initState]
    exact List.pairwise_lt_range' 3000 es.length
  · intro i h
    exact allocRun_lookup es initState i h

/-- Witness for C1: two allocations return ports 3000 and 3001, and the
second port reverse-looks-up to the second pair. -/
theorem allocator_ports_increasing_and_reverse_lookup_witness :
    (allocRun initState [(10, 5), (11, 7)]).1 = List.range' 3000 2
    ∧ dictGet (allocRun initState [(10, 5), (11, 7)]).2.natTranslation 3001 =
        some (11, 7) :=
  ⟨(allocator_ports_increasing_and_reverse_lookup [(10, 5), (11, 7)]).1,
   (allocator_ports_increasing_and_reverse_lookup [(10, 5), (11, 7)]).2.2 1
     (by decide)⟩

/-- C2: a resolution request for an address that already has a pending
queue appends the request to the queue and emits nothing; only the request
that creates the queue floods a single ARP request frame, so at most one
resolution broadcast is in flight per unresolved address. -/
theorem pending_queue_single_broadcast (cfg : Config) (s : NatState) (ip : Nat)
    (pkt : OFPacket) (m : Option MatchSpec) (a : Option (List OFAction)) :
    (∀ q, dictGet s.pendingArp ip = some q →
      sendArpRequest cfg s ip pkt m a =
        ([], { s with pendingArp := dictSet s.pendingArp ip (q ++ [⟨pkt, m, a⟩]) }))
    ∧ (dictGet s.pendingArp ip = none →
      sendArpRequest cfg s ip pkt m a =
        ([Event.sendPacket pkt.dpid pkt.inPort (arpRequestFrame cfg ip)
            [OFAction.output OutPort.flood]],
         { s with pendingArp := dictSet s.pendingArp ip [⟨pkt, m, a⟩] })) := by
  constructor
  · intro q hq
    simp [sendArpRequest, hq]
  · intro hn
    simp [sendArpRequest, hn]

/-- A concrete packet-in context used by the witnesses. -/
def pktW : OFPacket := ⟨3, 1, ⟨10, 11, 2048, L3.ipv4Pl 20 160 6 5000 80⟩⟩

/-- A concrete pending entry used by the witnesses. -/
def entryW : PendingEntry := ⟨pktW, none, none⟩

/-- A concrete state with one pending queue, used by the witnesses. -/
def sW1 : NatState := ⟨[], [], [(50, [entryW])], 3000, []⟩

/-- Witness for C2: with a queue pending on 50 the request appends silently;
from the initial state it floods exactly one ARP request frame. -/
theorem pending_queue_single_broadcast_witness :
    sendArpRequest cfgX sW1 50 pktW none none =
      ([], { sW1 with
        pendingArp := dictSet sW1.pendingArp 50 ([entryW] ++ [⟨pktW, none, none⟩]) })
    ∧ sendArpRequest cfgX initState 50 pktW none none =
      ([Event.sendPacket pktW.dpid pktW.inPort (arpRequestFrame cfgX 50)
          [OFAction.output OutPort.flood]],
       { initState with
         pendingArp := dictSet initState.pendingArp 50 [⟨pktW, none, none⟩] }) :=
  ⟨(pending_queue_single_broadcast cfgX sW1 50 pktW none none).1 [entryW] rfl,
   (pending_queue_single_broadcast cfgX initState 50 pktW none none).2 rfl⟩

/-- C9: after any sequence of learning observations, output-port resolution
returns the port of the most recent observation for that MAC address
(last-seen wins) and the flood sentinel for any never-observed address. -/
theorem resolveOutputPort_most_recent_or_flood (ps : List OFPacket) (mac : Nat) :
    resolveOutputPort (learnRun initState ps).switchTable mac =
      match ps.reverse.find? (fun p => p.dataFrame.ethSrc == mac) with
      | some p => OutPort.phys p.inPort
      | none => OutPort.flood := by
  have h := learnRun_lookup ps initState mac
  cases hf : ps.reverse.find? (fun p => p.dataFrame.ethSrc == mac) with
  | some p =>
    rw [hf] at h
    simp [resolveOutputPort, h]
  | none =>
    rw [hf] at h
    have h0 : dictGet initState.switchTable mac = none := rfl
    rw [h0] at h
    simp [resolveOutputPort, h]

/-- The packet-in context in effect after the drain loop of
handle_incoming_arp: the loop variable shadows the handler's parameter, so
after a non-empty drain it is the last parked request's context. -/
def drainedContext (pkt : OFPacket) (q : List PendingEntry) : OFPacket :=
  match q.getLast? with
  | some e => e.ofPkt
  | none => pkt

/-- C3: when an ARP frame from (X, macX) is observed while requests are
queued on X, the handler records the resolution entry for X, replays every
queued request exactly once, in submission order, through router_forward
with X's now-known link address (the emitted events are exactly the
concatenation of replayEvents over the queue — whose actions rewrite the
destination MAC to macX — followed by the single trailing learned-address
forward and, for requests, the ARP reply), and deletes the queue, so no
queue for X exists afterwards. -/
theorem arp_reply_records_replays_and_deletes_queue (cfg : Config) (s : NatState)
    (pkt : OFPacket) (f : Frame) (op macX X dm dIp : Nat) (q : List PendingEntry)
    (hf : f.l3 = L3.arpPl op macX X dm dIp)
    (hq : dictGet s.pendingArp X = some q) :
    (handleIncomingArp cfg s pkt f).events =
      (q.map (replayEvents cfg s.switchTable X macX)).flatten
        ++ switchForward (handleIncomingArp cfg s pkt f).state
             (drainedContext pkt q) f none
        ++ (if op = 1 then sendArpReply cfg (drainedContext pkt q) macX X dIp
            else [])
    ∧ (handleIncomingArp cfg s pkt f).err = none
    ∧ dictGet (handleIncomingArp cfg s pkt f).state.arpTable X = some macX
    ∧ dictGet (handleIncomingArp cfg s pkt f).state.pendingArp X = none := by
  obtain ⟨es, ed, et, l3f⟩ := f
  have hf2 : l3f = L3.arpPl op macX X dm dIp := hf
  subst hf2
  have hs1 : dictGet (dictSet s.arpTable X macX) X = some macX :=
    dictGet_set_self _ _ _
  have hd := drainLoop_known cfg X macX q
    { s with arpTable := dictSet s.arpTable X macX } hs1
  simp only [handleIncomingArp, hq, hd, drainedContext, List.append_assoc]
  exact ⟨trivial, trivial, hs1, dictGet_del_self _ X⟩

/-- A concrete pending entry for the C3 witness. -/
def entry3 : PendingEntry := ⟨⟨7, 1, frameG⟩, none, none⟩

/-- A concrete state with one request queued on 50, for the C3 witness. -/
def s3 : NatState := ⟨[], [], [(50, [entry3])], 3000, []⟩

/-- A concrete ARP reply frame from (50, 60), for the C3 witness. -/
def frame3 : Frame := ⟨60, 999, 2054, L3.arpPl 2 60 50 100 201⟩

/-- Witness for C3 at a concrete reply with one queued request. -/
theorem arp_reply_records_replays_and_deletes_queue_witness :
    (handleIncomingArp cfgX s3 ⟨1, 1, frame3⟩ frame3).events =
      ([entry3].map (replayEvents cfgX s3.switchTable 50 60)).flatten
        ++ switchForward (handleIncomingArp cfgX s3 ⟨1, 1, frame3⟩ frame3).state
             (drainedContext ⟨1, 1, frame3⟩ [entry3]) frame3 none
        ++ (if 2 = 1 then
              sendArpReply cfgX (drainedContext ⟨1, 1, frame3⟩ [entry3]) 60 50 201
            else [])
    ∧ (handleIncomingArp cfgX s3 ⟨1, 1, frame3⟩ frame3).err = none
    ∧ dictGet (handleIncomingArp cfgX s3 ⟨1, 1, frame3⟩ frame3).state.arpTable 50 =
        some 60
    ∧ dictGet (handleIncomingArp cfgX s3 ⟨1, 1, frame3⟩ frame3).state.pendingArp 50 =
        none :=
  arp_reply_records_replays_and_deletes_queue cfgX s3 ⟨1, 1, frame3⟩ frame3
    2 60 50 100 201 [entry3] rfl rfl

/-- A parked request whose packet-in context has ingress port 7 and whose
raw data is frameG, for the C5 evaluation. -/
def entry5 : PendingEntry := ⟨⟨7, 1, frameG⟩, none, none⟩

/-- State with entry5 queued on IP 50, for the C5 evaluation. -/
def s5 : NatState := ⟨[], [], [(50, [entry5])], 3000, []⟩

/-- The triggering ARP reply frame from (50, 60), for the C5 evaluation. -/
def frame5 : Frame := ⟨60, 999, 2054, L3.arpPl 2 60 50 100 201⟩

/-- The triggering packet-in context with ingress port 1, for the C5
evaluation. -/
def pkt5 : OFPacket := ⟨1, 1, frame5⟩

/-- C5 (code bug): the drain loop of handle_incoming_arp rebinds the local
variable holding the packet-in context, so after a non-empty drain the
trailing learned-address forward sends the LAST PARKED request's raw frame
(frameG), in that request's packet context (ingress port 7), instead of
the untouched triggering ARP frame (frame5, ingress port 1) that the
specification says is always re-forwarded. -/
theorem arp_forward_sends_drained_frame_not_trigger :
    handleIncomingArp cfgX s5 pkt5 frame5 =
      ⟨[Event.sendPacket 1 7 frameG
          [OFAction.decNwTtl, OFAction.setEthSrc 101, OFAction.setEthDst 60,
           OFAction.output OutPort.flood],
        Event.sendPacket 1 7 frameG [OFAction.output OutPort.flood]],
       ⟨[(50, 60)], [], [], 3000, []⟩, none⟩
    ∧ frameG ≠ frame5 ∧ pkt5.inPort ≠ 7 :=
  ⟨by decide, by decide, by decide⟩

/-- A parked request whose packet-in context has ingress port 2, for the
C8 evaluation. -/
def entry8 : PendingEntry := ⟨⟨2, 1, frameG⟩, none, none⟩

/-- State with entry8 queued on IP 50, for the C8 evaluation. -/
def s8 : NatState := ⟨[], [], [(50, [entry8])], 3000, []⟩

/-- An ARP request from (50, 60) for the gateway's internal IP 201,
arriving on ingress port 1, for the C8 evaluation. -/
def frame8 : Frame := ⟨60, 281474976710655, 2054, L3.arpPl 1 60 50 0 201⟩

/-- The triggering packet-in context for frame8. -/
def pkt8 : OFPacket := ⟨1, 1, frame8⟩

/-- An ARP request from (50, 60) for IP 77, which is not one of the
gateway's own addresses. -/
def frame8b : Frame := ⟨60, 281474976710655, 2054, L3.arpPl 1 60 50 0 77⟩

/-- C8 (code bug): an ARP request whose target is the gateway's internal
IP is answered with a synthesized reply addressed to the requester's MAC
(60), and a request for a foreign IP (77) gets no reply; but when the
request also drained a pending queue, the reply is emitted in the last
drained request's packet-in context — in_port 2 with an OFPP_IN_PORT
output — rather than on the requester's ingress port 1, because the drain
loop rebinds the packet-context variable. -/
theorem arp_reply_sent_on_drained_context_port :
    handleIncomingArp cfgX s8 pkt8 frame8 =
      ⟨[Event.sendPacket 1 2 frameG
          [OFAction.decNwTtl, OFAction.setEthSrc 101, OFAction.setEthDst 60,
           OFAction.output OutPort.flood],
        Event.sendPacket 1 2 frameG [OFAction.output OutPort.flood],
        Event.sendPacket 1 2 ⟨101, 60, 2054, L3.arpPl 2 101 201 60 50⟩
          [OFAction.output OutPort.inport]],
       ⟨[(50, 60)], [], [], 3000, []⟩, none⟩
    ∧ pkt8.inPort ≠ 2
    ∧ handleIncomingArp cfgX initState ⟨1, 1, frame8b⟩ frame8b =
      ⟨[Event.sendPacket 1 1 frame8b [OFAction.output OutPort.flood]],
       ⟨[(50, 60)], [], [], 3000, []⟩, none⟩ :=
  ⟨by decide, by decide, by decide⟩

/-- State with the gateway's MAC (99) already resolved, for the C4
evaluation. -/
def s4 : NatState := ⟨[(202, 99)], [], [], 3000, []⟩

/-- An internal-to-external TCP frame (destination 160 is outside the
internal network of cfgX), for the C4 evaluation. -/
def frame4 : Frame := ⟨10, 11, 2048, L3.ipv4Pl 20 160 6 5000 80⟩

/-- The packet-in context for frame4, ingress port 4. -/
def pkt4 : OFPacket := ⟨4, 1, frame4⟩

/-- The match spec the handler builds for frame4. -/
def m4 : MatchSpec := ⟨20, 160, 6, some 5000, some 80⟩

/-- The rewrite actions installed before forwarding frame4. -/
def acts4 : List OFAction :=
  [OFAction.setIpv4Src 200, OFAction.setTcpSrc 3000, OFAction.setEthSrc 100,
   OFAction.output OutPort.flood]

/-- The action list of the packet-out for frame4 (next-hop rewrites, then
acts4, then the output action appended by send_packet). -/
def full4 : List OFAction :=
  [OFAction.decNwTtl, OFAction.setEthSrc 100, OFAction.setEthDst 99,
   OFAction.setIpv4Src 200, OFAction.setTcpSrc 3000, OFAction.setEthSrc 100,
   OFAction.output OutPort.flood, OFAction.output OutPort.flood]

/-- C4 counterexample: on a concrete internal-to-external TCP frame with
the gateway's MAC already resolved, the first event the handler emits is a
flow-mod carrying the attached match — the rule is installed BEFORE the
first packet of the flow is sent, refuting the claim that whenever a
flow-install spec is attached the rule is installed only after the first
packet is sent. -/
theorem flow_installed_before_first_send_counterexample :
    handleIncomingInternalMsg cfgX s4 pkt4 frame4 =
      ⟨[Event.addFlow 1 m4 acts4,
        Event.sendPacket 1 4 frame4 full4,
        Event.addFlow 1 m4 full4],
       ⟨[(202, 99)], [], [], 3001, [(3000, (20, 5000))]⟩, none⟩
    ∧ (handleIncomingInternalMsg cfgX s4 pkt4 frame4).events.head? =
        some (Event.addFlow 1 m4 acts4) :=
  ⟨by decide, by decide⟩

/-- C4 amended: on the outbound internal-to-external path with the next
hop resolved, the flow rule is installed twice, bracketing the send: the
handler installs it before invoking the forwarding path, and
router_forward installs it again — with the output action included —
after the packet is sent.  Hence a matching rule already exists on the
switch before the first packet of the flow is sent. -/
theorem internal_to_external_installs_bracket_send (cfg : Config) (s : NatState)
    (pkt : OFPacket) (f : Frame) (srcIp dstIp proto sp dp gm : Nat)
    (hL3 : f.l3 = L3.ipv4Pl srcIp dstIp proto sp dp)
    (hType : f.ethType = 2048)
    (hProt : proto = 6 ∨ proto = 17)
    (hExt : cfg.isInternalNet dstIp = false)
    (hGw : dictGet s.arpTable cfg.natGatewayIp = some gm) :
    ∃ m a1 a2 s2,
      handleIncomingInternalMsg cfg s pkt f =
        ⟨[Event.addFlow pkt.dpid m a1,
          Event.sendPacket pkt.dpid pkt.inPort pkt.dataFrame a2,
          Event.addFlow pkt.dpid m a2], s2, none⟩ := by
  obtain ⟨es, ed, et, l3f⟩ := f
  have hf2 : l3f = L3.ipv4Pl srcIp dstIp proto sp dp := hL3
  have ht2 : et = 2048 := hType
  subst hf2
  subst ht2
  rcases hProt with h6 | h17
  · subst h6
    refine ⟨⟨srcIp, dstIp, 6, some sp, some dp⟩,
      [OFAction.setIpv4Src cfg.natExternalIp, OFAction.setTcpSrc s.natPort,
       OFAction.setEthSrc cfg.natExternalMac,
       OFAction.output (resolveOutputPort s.switchTable ed)],
      [OFAction.decNwTtl, OFAction.setEthSrc cfg.natExternalMac,
       OFAction.setEthDst gm,
       OFAction.setIpv4Src cfg.natExternalIp, OFAction.setTcpSrc s.natPort,
       OFAction.setEthSrc cfg.natExternalMac,
       OFAction.output (resolveOutputPort s.switchTable ed),
       OFAction.output (resolveOutputPort s.switchTable ed)],
      (addNatEntry s (srcIp, sp)).2, ?_⟩
    simp [handleIncomingInternalMsg, hExt, routerForward, hGw, addNatEntry,
      routerNextHop]
  · subst h17
    refine ⟨⟨srcIp, dstIp, 17, some sp, some dp⟩,
      [OFAction.setIpv4Src cfg.natExternalIp, OFAction.setUdpSrc s.natPort,
       OFAction.setEthSrc cfg.natExternalMac,
       OFAction.output (resolveOutputPort s.switchTable ed)],
      [OFAction.decNwTtl, OFAction.setEthSrc cfg.natExternalMac,
       OFAction.setEthDst gm,
       OFAction.setIpv4Src cfg.natExternalIp, OFAction.setUdpSrc s.natPort,
       OFAction.setEthSrc cfg.natExternalMac,
       OFAction.output (resolveOutputPort s.switchTable ed),
       OFAction.output (resolveOutputPort s.switchTable ed)],
      (addNatEntry s (srcIp, sp)).2, ?_⟩
    simp [handleIncomingInternalMsg, hExt, routerForward, hGw, addNatEntry,
      routerNextHop]

/-- Witness for the C4 amended claim at the concrete frame4 input. -/
theorem internal_to_external_installs_bracket_send_witness :
    ∃ m a1 a2 s2,
      handleIncomingInternalMsg cfgX s4 pkt4 frame4 =
        ⟨[Event.addFlow pkt4.dpid m a1,
          Event.sendPacket pkt4.dpid pkt4.inPort pkt4.dataFrame a2,
          Event.addFlow pkt4.dpid m a2], s2, none⟩ :=
  internal_to_external_installs_bracket_send cfgX s4 pkt4 frame4
    20 160 6 5000 80 99 rfl rfl (Or.inl rfl) (by decide) rfl

/-- C6: an inbound-from-external TCP or UDP frame whose transport
destination port has no entry in the translation table is dropped silently
by the packet-in pipeline: no event is emitted (no frame sent, no rule
installed) and, apart from MAC learning, the state is unchanged — in
particular no translation is ever created by inbound traffic. -/
theorem translation_miss_drops_silently (cfg : Config) (s : NatState)
    (pkt : OFPacket) (srcIp dstIp proto sp dp : Nat)
    (hType : pkt.dataFrame.ethType = 2048)
    (hDst : pkt.dataFrame.ethDst = cfg.natExternalMac)
    (hL3 : pkt.dataFrame.l3 = L3.ipv4Pl srcIp dstIp proto sp dp)
    (hProt : proto = 6 ∨ proto = 17)
    (hMiss : dictGet s.natTranslation dp = none) :
    handlePacketIn cfg s pkt = ⟨[], switchLearn s pkt, none⟩ := by
  obtain ⟨p0, d0, fr⟩ := pkt
  obtain ⟨es, ed, et, l3f⟩ := fr
  have ht2 : et = 2048 := hType
  have hd2 : ed = cfg.natExternalMac := hDst
  have hf2 : l3f = L3.ipv4Pl srcIp dstIp proto sp dp := hL3
  subst ht2
  subst hd2
  subst hf2
  have hMiss2 : dictGet (switchLearn s ⟨p0, d0, ⟨es, cfg.natExternalMac, 2048,
      L3.ipv4Pl srcIp dstIp proto sp dp⟩⟩).natTranslation dp = none := hMiss
  rcases hProt with h6 | h17
  · subst h6
    by_cases hdp : dp = 0
    · subst hdp
      simp [handlePacketIn, handleIncomingExternalMsg]
    · simp [handlePacketIn, handleIncomingExternalMsg, hdp, hMiss2]
  · subst h17
    by_cases hdp : dp = 0
    · subst hdp
      simp [handlePacketIn, handleIncomingExternalMsg]
    · simp [handlePacketIn, handleIncomingExternalMsg, hdp, hMiss2]

/-- A concrete inbound-from-external TCP frame with destination port 4000
and no translation entry, for the C6 witness. -/
def pkt6 : OFPacket := ⟨3, 1, ⟨10, 100, 2048, L3.ipv4Pl 90 200 6 1234 4000⟩⟩

/-- Witness for C6: the translation-miss frame is dropped with only the
learning update. -/
theorem translation_miss_drops_silently_witness :
    handlePacketIn cfgX initState pkt6 = ⟨[], switchLearn initState pkt6, none⟩ :=
  translation_miss_drops_silently cfgX initState pkt6 90 200 6 1234 4000
    rfl rfl rfl (Or.inl rfl) rfl

/-- The empty-tables state used by the C7 evaluations. -/
def s7 : NatState := ⟨[], [], [], 3000, []⟩

/-- An internal-to-internal IPv4 frame with unsupported transport
(ip_proto 2), for the C7 evaluation. -/
def frame7a : Frame := ⟨10, 11, 2048, L3.ipv4Pl 20 30 2 0 0⟩

/-- An internal-to-external IPv4 frame with unsupported transport for that
path (ICMP, ip_proto 1), for the C7 evaluation. -/
def frame7b : Frame := ⟨10, 11, 2048, L3.ipv4Pl 20 160 1 0 0⟩

/-- An inbound-from-external IPv4 frame with unsupported transport
(ip_proto 47), for the C7 evaluation. -/
def frame7c : Frame := ⟨10, 100, 2048, L3.ipv4Pl 20 200 47 0 0⟩

/-- C7 (code bug): an unsupported transport inside a supported IPv4 frame
is dropped silently only on the inbound-from-external path; on both
internal paths the local match variable is never assigned and the handler
raises UnboundLocalError at the flow installation instead of dropping
silently. -/
theorem unsupported_transport_raises_on_internal_paths :
    handleIncomingInternalMsg cfgX s7 ⟨3, 1, frame7a⟩ frame7a =
      ⟨[], s7, some PyErr.unboundLocal⟩
    ∧ handleIncomingInternalMsg cfgX s7 ⟨3, 1, frame7b⟩ frame7b =
      ⟨[], s7, some PyErr.unboundLocal⟩
    ∧ handleIncomingExternalMsg cfgX s7 ⟨3, 1, frame7c⟩ frame7c =
      ⟨[], s7, none⟩ :=
  ⟨by decide, by decide, by decide⟩

/-- State with a translation entry for port 3000 but no ARP entry for the
internal target 40, for the C10 evaluation. -/
def s10a : NatState := ⟨[], [], [], 3001, [(3000, (40, 8080))]⟩

/-- State with the translation entry and the ARP entry for 40 resolved to
MAC 70, but MAC 70 never learned by the switch, for the C10 evaluation. -/
def s10b : NatState := ⟨[(40, 70)], [], [], 3001, [(3000, (40, 8080))]⟩

/-- An inbound-from-external TCP frame whose destination port 3000 has a
translation entry, for the C10 evaluation. -/
def frame10 : Frame := ⟨10, 100, 2048, L3.ipv4Pl 90 200 6 1234 3000⟩

/-- The packet-in context for frame10. -/
def pkt10 : OFPacket := ⟨5, 1, frame10⟩

/-- C10: the inbound-from-external handler is not total on translation
hits: on a hit whose internal target has no ARP entry (still absent after
the ARP request and the fixed delay) it raises KeyError, and on a hit
whose internal host's MAC was never learned it raises UnboundLocalError
for the output port — instead of dropping or deferring. -/
theorem external_hit_raises_keyerror_or_unbound :
    dictGet s10a.natTranslation 3000 = some (40, 8080)
    ∧ (handleIncomingExternalMsg cfgX s10a pkt10 frame10).err = some PyErr.keyError
    ∧ dictGet s10b.natTranslation 3000 = some (40, 8080)
    ∧ (handleIncomingExternalMsg cfgX s10b pkt10 frame10).err =
        some PyErr.unboundLocal :=
  ⟨by decide, by decide, by decide, by decide⟩
